import Mathlib

/-!
Shallow embedding of the era-watchdog flow execution and cross-chain
reconciliation engine (flowMetric.ts, utils.ts, depositBase.ts,
depositUsers.ts, deposit.ts, transfer.ts, withdrawalBase.ts and the
withdrawal finalize flow).

Modelling conventions:
* JavaScript numbers that hold timestamps, block numbers, gas values are
  modelled as `Int`; latencies (seconds, possibly fractional) as `Rat`.
* A method that can `throw` is modelled with `Except String`; the string is
  the error message.  A method whose body cannot throw returns `.ok` always.
* The process-wide Prometheus store is modelled as a trace of write events;
  a gauge's current value is the last `set` event for its labels.
* Asynchronous work handed to a step is abstracted by the list of gas
  callback writes it performs, the (milliseconds) duration until it settles
  and its settlement outcome.
-/

/-- Flow status without SKIP (`StatusNoSkip` in flowMetric.ts). -/
inductive StatusNoSkip where
  | OK
  | FAIL
  deriving DecidableEq, Repr

/-- Flow status including SKIP (`Status` in flowMetric.ts). -/
inductive Status where
  | OK
  | FAIL
  | SKIP
  deriving DecidableEq, Repr

/-- Inclusion of the SKIP-free statuses into `Status` (the TS object spread
`{...StatusNoSkip, SKIP}` makes the string values coincide). -/
def StatusNoSkip.toStatus : StatusNoSkip → Status
  | .OK => .OK
  | .FAIL => .FAIL

/-- One write to the process-wide metric store (`FlowMetricStore` in
flowMetric.ts).  `Gauge.set` / `Histogram.observe` are modelled as events
appended to a trace. -/
inductive MetricEvent where
  | statusSet (flow : String) (value : Rat)
  | statusHistObserve (flow : String) (value : Rat)
  | latencyTotalSet (flow : String) (value : Rat)
  | stepLatencySet (flow : String) (step : String) (value : Rat)
  | stepTimestampSet (flow : String) (step : String) (value : Int)
  | stepGasSet (flow : String) (step : String) (value : Int)
  | stepGasPriceSet (flow : String) (step : String) (value : Int)
  | stepGasCostSet (flow : String) (step : String) (value : Int)
  | auxGaugeSet (name : String) (value : Rat)
  deriving DecidableEq, Repr

/-- Value written by a `watchdog_status` gauge set for the given flow, if
this event is one. -/
def MetricEvent.statusValueFor (flow : String) : MetricEvent → Option Rat
  | .statusSet f v => if f = flow then some v else none
  | _ => none

/-- Current value of the `watchdog_status` gauge for a flow: the last set
event for that flow in the trace (a gauge is last-write-wins). -/
def lastStatusGauge (trace : List MetricEvent) (flow : String) : Option Rat :=
  (trace.filterMap (MetricEvent.statusValueFor flow)).getLast?

/-- Recogniser for step latency gauge writes of a given flow/step. -/
def MetricEvent.isStepLatencyFor (flow step : String) : MetricEvent → Bool
  | .stepLatencySet f st _ => f == flow && st == step
  | _ => false

/-- Recogniser for step end-timestamp gauge writes of a given flow/step. -/
def MetricEvent.isStepTimestampFor (flow step : String) : MetricEvent → Bool
  | .stepTimestampSet f st _ => f == flow && st == step
  | _ => false

/-- Number of step latency gauge writes for a flow/step in a trace. -/
def stepLatencyWriteCount (trace : List MetricEvent) (flow step : String) : Nat :=
  (trace.filter (MetricEvent.isStepLatencyFor flow step)).length

/-- Number of step end-timestamp gauge writes for a flow/step in a trace. -/
def stepTimestampWriteCount (trace : List MetricEvent) (flow step : String) : Nat :=
  (trace.filter (MetricEvent.isStepTimestampFor flow step)).length

/-- State of a `FlowMetricRecorder` (flowMetric.ts) together with the
store trace it writes to.  In TS the store is a module-level singleton;
every claim below concerns a single recorder, so the trace is carried in
the recorder state. -/
structure FlowMetricRecorder where
  flowName : String
  startTime : Option Int
  lastStepLatency : Option Rat
  lastExecutionTotalLatency : Option Rat
  trace : List MetricEvent
  deriving DecidableEq, Repr

/-- JavaScript truthiness of a `number | null` field: `null` and `0` are
falsy, every other number is truthy. -/
def truthyNum : Option Int → Bool
  | none => false
  | some n => n != 0

/-- flowMetric.ts `recordFlowStart`: the body unconditionally assigns
`this.startTime = Date.now()` and logs; it contains no already-open check
and no throw statement, so it is a total function of the state. -/
def FlowMetricRecorder.recordFlowStart (now : Int) (s : FlowMetricRecorder) :
    FlowMetricRecorder :=
  { s with startTime := some now }

/-- flowMetric.ts `recordFlowSuccess`: when a start time is set (JS truthy
check), sets total latency, status gauge 1, observes 1 on the histogram and
clears the start time; otherwise throws. -/
def FlowMetricRecorder.recordFlowSuccess (now : Int) (s : FlowMetricRecorder) :
    Except String FlowMetricRecorder :=
  if truthyNum s.startTime then
    let latency : Rat := ((now - s.startTime.getD 0 : Int) : Rat) / 1000
    .ok { s with
          trace := s.trace ++
            [.latencyTotalSet s.flowName latency,
             .statusSet s.flowName 1,
             .statusHistObserve s.flowName 1],
          lastExecutionTotalLatency := some latency,
          startTime := none }
  else
    .error "Flow start was not recorded"

/-- flowMetric.ts `recordFlowSkipped`: when a start time is set, sets the
status gauge to 0.5 and clears the start time; otherwise throws.  No
histogram observation and no total latency are recorded. -/
def FlowMetricRecorder.recordFlowSkipped (s : FlowMetricRecorder) :
    Except String FlowMetricRecorder :=
  if truthyNum s.startTime then
    .ok { s with
          trace := s.trace ++ [.statusSet s.flowName (1/2)],
          startTime := none }
  else
    .error "Flow start was not recorded"

/-- flowMetric.ts `recordFlowFailure`: unconditionally sets the status
gauge to 0, observes 0 on the histogram and clears the start time; the body
contains no start-time check and no throw statement, so it is a total
function of the state. -/
def FlowMetricRecorder.recordFlowFailure (s : FlowMetricRecorder) :
    FlowMetricRecorder :=
  { s with
    trace := s.trace ++
      [.statusSet s.flowName 0, .statusHistObserve s.flowName 0],
    startTime := none }

/-- flowMetric.ts `manualRecordStatus`: sets the status gauge and histogram
to 1 when the status is OK and to 0 otherwise (also for SKIP); total
latency is recorded only for OK. -/
def FlowMetricRecorder.manualRecordStatus (status : Status) (latencyTotalSec : Rat)
    (s : FlowMetricRecorder) : FlowMetricRecorder :=
  let v : Rat := if status = Status.OK then 1 else 0
  let s1 := { s with trace := s.trace ++
                [.statusSet s.flowName v, .statusHistObserve s.flowName v] }
  if status = Status.OK then
    { s1 with trace := s1.trace ++ [.latencyTotalSet s1.flowName latencyTotalSec],
              lastExecutionTotalLatency := some latencyTotalSec }
  else s1

/-- flowMetric.ts `manualRecordStepCompletion`. -/
def FlowMetricRecorder.manualRecordStepCompletion (stepName : String)
    (latencySec : Rat) (stepEndSec : Int) (s : FlowMetricRecorder) : FlowMetricRecorder :=
  { s with
    trace := s.trace ++
      [.stepLatencySet s.flowName stepName latencySec,
       .stepTimestampSet s.flowName stepName (stepEndSec * 1000)],
    lastStepLatency := some latencySec }

/-- flowMetric.ts `manualRecordStepGas`. -/
def FlowMetricRecorder.manualRecordStepGas (stepName : String) (gas : Int)
    (s : FlowMetricRecorder) : FlowMetricRecorder :=
  { s with trace := s.trace ++ [.stepGasSet s.flowName stepName gas] }

/-- flowMetric.ts `manualRecordStepGasPrice`. -/
def FlowMetricRecorder.manualRecordStepGasPrice (stepName : String) (price : Int)
    (s : FlowMetricRecorder) : FlowMetricRecorder :=
  { s with trace := s.trace ++ [.stepGasPriceSet s.flowName stepName price] }

/-- flowMetric.ts `manualRecordStepGasCost`. -/
def FlowMetricRecorder.manualRecordStepGasCost (stepName : String) (cost : Int)
    (s : FlowMetricRecorder) : FlowMetricRecorder :=
  { s with trace := s.trace ++ [.stepGasCostSet s.flowName stepName cost] }

/-- utils.ts `withTimeout`: races a promise against a timer of
`timeoutMs` milliseconds.  The promise is abstracted by its settlement
outcome and the duration (ms) until it settles: if it settles no later than
the deadline its outcome wins, otherwise the timer rejects first with the
timeout error.  The underlying work is abandoned, not cancelled. -/
def withTimeout (T : Type) (outcome : Except String T) (durationMs timeoutMs : Int)
    (context : String) : Except String T :=
  if durationMs ≤ timeoutMs then outcome
  else .error (context ++ " timed out after " ++ toString timeoutMs ++ " ms")

/-- Gas callback writes a step's work performs via the helpers handed to
`fn` by `stepExecution` (flowMetric.ts). -/
inductive GasWrite where
  | gas (v : Int)
  | gasPrice (v : Int)
  | gasCost (v : Int)
  deriving DecidableEq, Repr

/-- Abstraction of the asynchronous work handed to `stepExecution`: the gas
callback writes it performs while running, the milliseconds until it
settles and its settlement outcome. -/
structure StepWork (T : Type) where
  gasWrites : List GasWrite
  durationMs : Int
  outcome : Except String T

/-- Store event corresponding to one gas callback write. -/
def GasWrite.toEvent (flow step : String) : GasWrite → MetricEvent
  | .gas v => .stepGasSet flow step v
  | .gasPrice v => .stepGasPriceSet flow step v
  | .gasCost v => .stepGasCostSet flow step v

/-- flowMetric.ts `stepExecution`: runs the work under `withTimeout`.  Gas
callback writes land in the store while the work runs.  Only when the
race resolves successfully are the step latency gauge and the step
end-timestamp gauge written; when the work rejects or the deadline fires
first the awaited race throws before either write.  The error is
propagated to the caller alongside the mutated store. -/
def FlowMetricRecorder.stepExecution (T : Type) (stepName : String) (stepTimeoutMs : Int)
    (work : StepWork T) (startMs : Int) (s : FlowMetricRecorder) :
    FlowMetricRecorder × Except String T :=
  let s1 := { s with trace := s.trace ++
                (work.gasWrites.map (GasWrite.toEvent s.flowName stepName)) }
  match withTimeout T work.outcome work.durationMs stepTimeoutMs ("step " ++ stepName) with
  | .error e => (s1, .error e)
  | .ok v =>
      let endMs := startMs + work.durationMs
      let latency : Rat := ((endMs - startMs : Int) : Rat) / 1000
      ({ s1 with
         trace := s1.trace ++
           [.stepLatencySet s1.flowName stepName latency,
            .stepTimestampSet s1.flowName stepName endMs],
         lastStepLatency := some latency },
       .ok v)

/-- Transaction receipt as used by the reconciliation code: the receipt
status (1 = success), gas used/price and the timestamp of the containing
block (fetched via `receipt.getBlock()`). -/
structure TxReceipt where
  hash : String
  status : Int
  gasUsed : Int
  gasPrice : Int
  blockTimestamp : Int
  deriving DecidableEq, Repr

/-- One `BridgehubDepositBaseTokenInitiated` log returned by the L1
`getLogs` query in depositBase.ts `getLastExecution`, bundled with the
values the subsequent RPC lookups yield for it: the containing L1 block's
timestamp, the L1 transaction receipt, and the L2 receipt that
`waitForTransaction` on the derived priority-operation hash produces
(`none` when it returns null within the timeout or throws). -/
structure DepositEvent where
  blockNumber : Int
  l1Timestamp : Int
  l1Receipt : TxReceipt
  l2Receipt : Option TxReceipt
  deriving DecidableEq, Repr

/-- Chain state consumed by one call of depositBase.ts `getLastExecution`:
the timestamp of the latest L1 block (`getCurrentChainTimestamp`) and the
event list the bounded-window `getLogs` query returns. -/
structure DepositChainEnv where
  latestL1Timestamp : Int
  events : List DepositEvent
  deriving DecidableEq, Repr

/-- Stable insert for descending block numbers: the element goes before the
first strictly smaller block number, after everything it ties with. -/
def insertByBlockDesc (e : DepositEvent) : List DepositEvent → List DepositEvent
  | [] => [e]
  | x :: xs =>
      if x.blockNumber < e.blockNumber then e :: x :: xs
      else x :: insertByBlockDesc e xs

/-- JavaScript `events.sort((a, b) => b.blockNumber - a.blockNumber)`:
stable sort by block number descending. -/
def sortByBlockDesc (events : List DepositEvent) : List DepositEvent :=
  events.foldl (fun acc e => insertByBlockDesc e acc) []

/-- The `ExecutionResultKnown` record of depositBase.ts. -/
structure ExecutionResultKnown where
  secSinceL1Deposit : Int
  l1Receipt : TxReceipt
  timestampL1 : Int
  l2Receipt : Option TxReceipt
  timestampL2 : Option Int
  status : StatusNoSkip
  deriving DecidableEq, Repr

/-- The `ExecutionResult` union of depositBase.ts: `unknown` is the
`{status: null, timestampL1: 0}` record. -/
inductive ExecutionResult where
  | unknown
  | known (k : ExecutionResultKnown)
  deriving DecidableEq, Repr

/-- The event depositBase.ts `getLastExecution` selects: the head of the
event list after the descending stable sort by block number. -/
def selectedDepositEvent (env : DepositChainEnv) : Option DepositEvent :=
  (sortByBlockDesc env.events).head?

/-- depositBase.ts `getLastExecution` (lines 85-157): sorts the events of
the queried window by block number descending; with no event returns
`unknown`; otherwise takes the most recent event, computes
`secSinceL1Deposit = blockchainTime - timestampL1` against the latest L1
block timestamp fetched at the start of the call, derives the L2 hash and
waits for the L2 receipt.  A missing L2 receipt or a receipt status other
than 1 yields FAIL (spreading only the L1 fields); a successful receipt
yields OK together with the receipt and its block timestamp. -/
def DepositBaseFlow.getLastExecution (env : DepositChainEnv) : ExecutionResult :=
  match sortByBlockDesc env.events with
  | [] => .unknown
  | event :: _ =>
      let timestampL1 := event.l1Timestamp
      let l1Receipt := event.l1Receipt
      let secSinceL1Deposit := env.latestL1Timestamp - timestampL1
      match event.l2Receipt with
      | none =>
          .known { secSinceL1Deposit, l1Receipt, timestampL1,
                   l2Receipt := none, timestampL2 := none,
                   status := .FAIL }
      | some l2Receipt =>
          if l2Receipt.status ≠ 1 then
            .known { secSinceL1Deposit, l1Receipt, timestampL1,
                     l2Receipt := none, timestampL2 := none,
                     status := .FAIL }
          else
            .known { secSinceL1Deposit, l1Receipt, timestampL1,
                     l2Receipt := some l2Receipt,
                     timestampL2 := some l2Receipt.blockTimestamp,
                     status := .OK }

/-- depositUsers.ts `recordDepositResult` (latest variant): for an OK
result records the status with total latency `timestampL2 - timestampL1`,
then the L1/L2 step completions and gas figures, then the
`watchdog_time_since_last_deposit` gauge; `unwrap` throws on a missing
value, and writes made before the throw persist in the store, so the
mutated recorder state is returned alongside the outcome.  For FAIL only
the status is recorded. -/
def DepositUserFlow.recordDepositResult (k : ExecutionResultKnown)
    (s : FlowMetricRecorder) : FlowMetricRecorder × Except String Unit :=
  match k.status with
  | .FAIL => (FlowMetricRecorder.manualRecordStatus .FAIL 0 s, .ok ())
  | .OK =>
      match k.timestampL2 with
      | none => (s, .error "Value is undefined or null")
      | some t2 =>
          let s1 := FlowMetricRecorder.manualRecordStatus .OK
            (((t2 - k.timestampL1 : Int) : Rat)) s
          let s2 := FlowMetricRecorder.manualRecordStepCompletion "l1_execution" 0
            k.timestampL1 s1
          let s3 := FlowMetricRecorder.manualRecordStepGas "l1_execution"
            k.l1Receipt.gasUsed s2
          let s4 := FlowMetricRecorder.manualRecordStepGasPrice "l1_execution"
            k.l1Receipt.gasPrice s3
          let s5 := FlowMetricRecorder.manualRecordStepGasCost "l1_execution"
            (k.l1Receipt.gasUsed * k.l1Receipt.gasPrice) s4
          let s6 := FlowMetricRecorder.manualRecordStepCompletion "l2_execution"
            ((t2 - k.timestampL1 : Int) : Rat) t2 s5
          match k.l2Receipt with
          | none => (s6, .error "Value is undefined or null")
          | some r2 =>
              let s7 := FlowMetricRecorder.manualRecordStepGas "l2_execution" r2.gasUsed s6
              let s8 := FlowMetricRecorder.manualRecordStepGasPrice "l2_execution"
                r2.gasPrice s7
              let s9 := FlowMetricRecorder.manualRecordStepGasCost "l2_execution"
                (r2.gasUsed * r2.gasPrice) s8
              let s10 := { s9 with trace := s9.trace ++
                [.auxGaugeSet "watchdog_time_since_last_deposit"
                  ((k.secSinceL1Deposit : Int) : Rat)] }
              (s10, .ok ())

/-- Inputs one attempt of depositUsers.ts `executeDepositTx` consumes:
the current chain timestamp and the L1 fee data (each `none` when the RPC
result is missing, making `unwrap` throw), the combined outcome of the
submission path (`deposit`, `waitL1Commit`, main-contract lookup and
`wait`), and the chain state the follow-up `getLastExecution` of the
wallet's own address sees. -/
structure DepositTxEnv where
  chainTimestamp : Option Int
  maxFeePerGas : Option Int
  maxPriorityFeePerGas : Option Int
  submitOutcome : Except String Unit
  reconcile : DepositChainEnv

/-- Mutable state of a `DepositUserFlow` instance relevant to one attempt. -/
structure DepositUserFlowState where
  lastOnChainOperationTimestamp : Int
  metricRecorder : FlowMetricRecorder
  deriving DecidableEq, Repr

/-- depositUsers.ts `executeDepositTx` (lines 184-224): records the chain
timestamp, fetches fee data and unwraps `maxFeePerGas`; if it exceeds the
configured gas price limit the attempt records SKIP and returns SKIP
without reaching the deposit call.  Otherwise it unwraps
`maxPriorityFeePerGas` (still before the deposit call), submits and waits,
reconciles its own last execution and records the result; a null
reconciliation status throws.  Every throw is caught at the attempt
boundary, records FAIL and returns FAIL.  The returned flag is true
exactly when control reached the `wallet.deposit` submission call. -/
def DepositUserFlow.executeDepositTx (gasPriceLimit : Int) (env : DepositTxEnv)
    (s : DepositUserFlowState) : DepositUserFlowState × Status × Bool :=
  match env.chainTimestamp with
  | none =>
      ({ s with metricRecorder :=
          FlowMetricRecorder.manualRecordStatus .FAIL 0 s.metricRecorder }, .FAIL, false)
  | some ts =>
      let s0 := { s with lastOnChainOperationTimestamp := ts }
      match env.maxFeePerGas with
      | none =>
          ({ s0 with metricRecorder :=
              FlowMetricRecorder.manualRecordStatus .FAIL 0 s0.metricRecorder }, .FAIL, false)
      | some maxFee =>
          if maxFee > gasPriceLimit then
            ({ s0 with metricRecorder :=
                FlowMetricRecorder.manualRecordStatus .SKIP 0 s0.metricRecorder }, .SKIP, false)
          else
            match env.maxPriorityFeePerGas with
            | none =>
                ({ s0 with metricRecorder :=
                    FlowMetricRecorder.manualRecordStatus .FAIL 0 s0.metricRecorder },
                 .FAIL, false)
            | some _ =>
                match env.submitOutcome with
                | .error _ =>
                    ({ s0 with metricRecorder :=
                        FlowMetricRecorder.manualRecordStatus .FAIL 0 s0.metricRecorder },
                     .FAIL, true)
                | .ok _ =>
                    match DepositBaseFlow.getLastExecution env.reconcile with
                    | .unknown =>
                        ({ s0 with metricRecorder :=
                            FlowMetricRecorder.manualRecordStatus .FAIL 0 s0.metricRecorder },
                         .FAIL, true)
                    | .known k =>
                        match DepositUserFlow.recordDepositResult k s0.metricRecorder with
                        | (rec1, .ok _) =>
                            ({ s0 with metricRecorder := rec1 }, k.status.toStatus, true)
                        | (rec1, .error _) =>
                            ({ s0 with metricRecorder :=
                                FlowMetricRecorder.manualRecordStatus .FAIL 0 rec1 },
                             .FAIL, true)

/-- depositUsers.ts `run` manual-deposit retry loop (lines 253-281).  The
k-th invocation of `executeDepositTx` is abstracted by `results k`.  The
loop runs while `attempt < limit`; OK breaks out, FAIL increments the
attempt counter and SKIP leaves it unchanged; after the switch only OK
terminates the iteration.  A fuel bound makes the (not structurally
terminating) while loop a total function: `some n` means the loop exited
after `n` invocations, `none` that it was still running when the fuel ran
out. -/
def DepositUserFlow.runRetryLoop (limit : Nat) (results : Nat → Status) :
    Nat → Nat → Nat → Option Nat
  | 0, _, _ => none
  | fuel + 1, attempt, invocations =>
      if attempt < limit then
        match results invocations with
        | .OK => some (invocations + 1)
        | .SKIP => DepositUserFlow.runRetryLoop limit results fuel attempt (invocations + 1)
        | .FAIL => DepositUserFlow.runRetryLoop limit results fuel (attempt + 1) (invocations + 1)
      else some invocations

/-- deposit.ts `run` retry loop body (lines 161-166): a for loop of at most
`remaining` iterations; each iteration invokes `executeWatchdogDeposit`
(abstracted by `results` at the invocation index), sleeps and continues on
FAIL, breaks otherwise.  Returns the number of invocations performed. -/
def DepositFlow.runRetryFor (results : Nat → StatusNoSkip) :
    Nat → Nat → Nat
  | 0, invocations => invocations
  | remaining + 1, invocations =>
      match results invocations with
      | .FAIL => DepositFlow.runRetryFor results remaining (invocations + 1)
      | .OK => invocations + 1

/-- Number of `executeWatchdogDeposit` invocations one cycle of the
deposit.ts retry loop performs under the given attempt outcomes. -/
def DepositFlow.retryInvocationCount (limit : Nat) (results : Nat → StatusNoSkip) : Nat :=
  DepositFlow.runRetryFor results limit 0

/-- transfer.ts `run` retry loop body (lines 247-256): a for loop of at
most `remaining` iterations; each iteration invokes `step` under the wallet
lock (abstracted by `results`), breaks on OK and otherwise sleeps and
continues.  Returns the number of invocations performed. -/
def SimpleTxFlow.runRetryFor (results : Nat → StatusNoSkip) :
    Nat → Nat → Nat
  | 0, invocations => invocations
  | remaining + 1, invocations =>
      match results invocations with
      | .OK => invocations + 1
      | .FAIL => SimpleTxFlow.runRetryFor results remaining (invocations + 1)

/-- Number of `step` invocations one cycle of the transfer.ts retry loop
performs under the given attempt outcomes. -/
def SimpleTxFlow.retryInvocationCount (limit : Nat) (results : Nat → StatusNoSkip) : Nat :=
  SimpleTxFlow.runRetryFor results limit 0

/-- The L2 base token system contract address
(`L2_BASE_TOKEN_ADDRESS` from zksync-ethers utils). -/
def L2_BASE_TOKEN_ADDRESS : String := "0x000000000000000000000000000000000000800a"

/-- zksync-ethers `isAddressEq`: case-insensitive address comparison. -/
def isAddressEq (a b : String) : Bool := a.toLower == b.toLower

/-- One base-token `Withdrawal` log returned by the L2 `getLogs` query in
withdrawalBase.ts `getLastExecution`, with the values the follow-up
lookups yield: the containing block's timestamp and the L2 transaction
receipt. -/
structure WithdrawalEvent where
  blockNumber : Int
  timestampL2 : Int
  l2Receipt : TxReceipt
  deriving DecidableEq, Repr

/-- Chain state consumed by withdrawalBase.ts `getLastExecution`: whether
the `MAX_LOGS_BLOCKS_L2 == "0"` kill switch is set and the event list the
bounded-window query against the chosen block tag returns. -/
structure WithdrawalChainEnv where
  logsDisabled : Bool
  events : List WithdrawalEvent
  deriving DecidableEq, Repr

/-- The non-null `ExecutionResult` of withdrawalBase.ts. -/
structure WithdrawalExecutionKnown where
  l2Receipt : TxReceipt
  timestampL2 : Int
  deriving DecidableEq, Repr

/-- Stable insert for descending block numbers (withdrawal events). -/
def insertWithdrawalByBlockDesc (e : WithdrawalEvent) :
    List WithdrawalEvent → List WithdrawalEvent
  | [] => [e]
  | x :: xs =>
      if x.blockNumber < e.blockNumber then e :: x :: xs
      else x :: insertWithdrawalByBlockDesc e xs

/-- JavaScript stable sort of withdrawal events by block number descending. -/
def sortWithdrawalsByBlockDesc (events : List WithdrawalEvent) : List WithdrawalEvent :=
  events.foldl (fun acc e => insertWithdrawalByBlockDesc e acc) []

/-- withdrawalBase.ts `getLastExecution` (lines 75-105): returns null
early when the log query is disabled; sorts the returned events by block
number descending; returns null when none is found and otherwise the most
recent event's receipt and block timestamp. -/
def WithdrawalBaseFlow.getLastExecution (env : WithdrawalChainEnv) :
    Option WithdrawalExecutionKnown :=
  if env.logsDisabled then none
  else
    match sortWithdrawalsByBlockDesc env.events with
    | [] => none
    | e :: _ => some { l2Receipt := e.l2Receipt, timestampL2 := e.timestampL2 }

/-- Result record of `wallet.getFinalizeWithdrawalParams`. -/
structure FinalizeWithdrawalParams where
  l1BatchNumber : Int
  l2MessageIndex : Int
  l2TxNumberInBlock : Int
  message : String
  sender : String
  proof : List String

/-- Inputs one run of the withdrawal-finalize attempt consumes: the chain
state for the finalized-window withdrawal query, the two chain timestamps
read before the flow starts, the wall-clock instants, and the abstracted
step work of the proof-parameter fetch and of the L1 gas-estimate
simulation, plus the `PRE_V26_BRIDGES` configuration flag. -/
structure WithdrawalFinalizeEnv where
  withdrawals : WithdrawalChainEnv
  blockTimestamp : Int
  finalizedBlockTimestamp : Int
  startNowMs : Int
  nowSec : Rat
  paramsStartMs : Int
  paramsWork : StepWork FinalizeWithdrawalParams
  simStartMs : Int
  estimateGasWork : StepWork Int
  preV26 : Bool
  sealNowMs : Int

/-- WithdrawalFinalizeFlow `executeWithdrawalFinalize` (latest variant,
lines 36-101): queries the latest finalizable withdrawal and the chain
timestamps, records the flow start; with no withdrawal found it records
the flow as skipped and returns SKIP without ever fetching finalization
proof parameters.  Otherwise it sets the two time-since gauges, fetches
the finalization parameters as a step, throws unless the withdrawal is
base-token-denominated, and (pre-v26 only) gas-estimates the L1
finalization call as a step before sealing the run as success; any throw
is caught at the attempt boundary, records failure and returns FAIL.  The
returned flag is true exactly when control reached the proof-parameter
fetch step. -/
def WithdrawalFinalizeFlow.executeWithdrawalFinalize (env : WithdrawalFinalizeEnv)
    (rec : FlowMetricRecorder) : FlowMetricRecorder × Status × Bool :=
  let ex := WithdrawalBaseFlow.getLastExecution env.withdrawals
  let rec1 := FlowMetricRecorder.recordFlowStart env.startNowMs rec
  match ex with
  | none =>
      match FlowMetricRecorder.recordFlowSkipped rec1 with
      | .ok rec2 => (rec2, .SKIP, false)
      | .error _ => (FlowMetricRecorder.recordFlowFailure rec1, .FAIL, false)
  | some execution =>
      let rec2 := { rec1 with trace := rec1.trace ++
        [.auxGaugeSet "watchdog_time_since_last_finalizable_withdrawal"
            (((env.blockTimestamp - execution.timestampL2 : Int)) : Rat),
         .auxGaugeSet "watchdog_time_since_last_finalized_block"
            (env.nowSec - ((env.finalizedBlockTimestamp : Int) : Rat))] }
      match FlowMetricRecorder.stepExecution FinalizeWithdrawalParams
          "get_finalization_params" 10000 env.paramsWork env.paramsStartMs rec2 with
      | (rec3, .error _) => (FlowMetricRecorder.recordFlowFailure rec3, .FAIL, true)
      | (rec3, .ok params) =>
          if ¬ isAddressEq params.sender L2_BASE_TOKEN_ADDRESS then
            (FlowMetricRecorder.recordFlowFailure rec3, .FAIL, true)
          else if env.preV26 then
            match FlowMetricRecorder.stepExecution Int "l1_simulation" 10000
                env.estimateGasWork env.simStartMs rec3 with
            | (rec4, .error _) => (FlowMetricRecorder.recordFlowFailure rec4, .FAIL, true)
            | (rec4, .ok _gas) =>
                match FlowMetricRecorder.recordFlowSuccess env.sealNowMs rec4 with
                | .ok rec5 => (rec5, .OK, true)
                | .error _ => (FlowMetricRecorder.recordFlowFailure rec4, .FAIL, true)
          else
            (FlowMetricRecorder.recordFlowFailure rec3, .FAIL, true)

/-- Appending a status set event makes it the gauge's current value. -/
theorem lastStatusGauge_append_statusSet (t : List MetricEvent) (f : String) (v : Rat) :
    lastStatusGauge (t ++ [.statusSet f v]) f = some v := by
  simp [lastStatusGauge, List.filterMap_append, MetricEvent.statusValueFor]

/-- Appending a status set event followed by a histogram observation makes
the set value the gauge's current value (the histogram event is not a
gauge write). -/
theorem lastStatusGauge_append_statusSet_hist (t : List MetricEvent) (f : String)
    (v w : Rat) :
    lastStatusGauge (t ++ [.statusSet f v, .statusHistObserve f w]) f = some v := by
  simp [lastStatusGauge, List.filterMap_append, MetricEvent.statusValueFor]

/-- Gas callback writes are not step latency gauge writes. -/
theorem gasWrites_filter_latency (flow step f2 s2 : String) (ws : List GasWrite) :
    (ws.map (GasWrite.toEvent f2 s2)).filter (MetricEvent.isStepLatencyFor flow step) = [] := by
  induction ws with
  | nil => rfl
  | cons w ws ih => cases w <;> simp [GasWrite.toEvent, MetricEvent.isStepLatencyFor, ih]

/-- Gas callback writes are not step end-timestamp gauge writes. -/
theorem gasWrites_filter_timestamp (flow step f2 s2 : String) (ws : List GasWrite) :
    (ws.map (GasWrite.toEvent f2 s2)).filter (MetricEvent.isStepTimestampFor flow step) = [] := by
  induction ws with
  | nil => rfl
  | cons w ws ih => cases w <;> simp [GasWrite.toEvent, MetricEvent.isStepTimestampFor, ih]

/-- Fresh recorder for a named flow, as constructed by `new
FlowMetricRecorder(flowName, logger)`. -/
def freshRecorder (flow : String) : FlowMetricRecorder :=
  { flowName := flow, startTime := none, lastStepLatency := none,
    lastExecutionTotalLatency := none, trace := [] }

/-- C4: counterexample.  The claim says a second `recordFlowStart` with no
intervening seal fails fatally with a `LogicError`; on the code the body
has no open-run check and cannot throw, so the second call completes and
silently overwrites the open run's start time. -/
theorem c4_counterexample :
    FlowMetricRecorder.recordFlowStart 200
        (FlowMetricRecorder.recordFlowStart 100 (freshRecorder "transfer")) =
      { freshRecorder "transfer" with startTime := some 200 } := by
  rfl

/-- C4 (amended): `recordFlowStart` never fails; calling it while a run is
already open silently overwrites the start time, leaving the state exactly
as if only the second call had happened. -/
theorem c4_amended (t1 t2 : Int) (s : FlowMetricRecorder) :
    FlowMetricRecorder.recordFlowStart t2 (FlowMetricRecorder.recordFlowStart t1 s) =
      FlowMetricRecorder.recordFlowStart t2 s := by
  rfl

/-- C10: sealing a `FlowRun` is asymmetric at the public interface.  With
no open run, `recordFlowSuccess` and `recordFlowSkipped` throw the error
`Flow start was not recorded`, while `recordFlowFailure` (a total function
in the embedding because its body has no throw) still publishes status 0
and clears the run state. -/
theorem c10_seal_asymmetry (s : FlowMetricRecorder) (now : Int)
    (hclosed : s.startTime = none) :
    FlowMetricRecorder.recordFlowSuccess now s = .error "Flow start was not recorded" ∧
    FlowMetricRecorder.recordFlowSkipped s = .error "Flow start was not recorded" ∧
    lastStatusGauge (FlowMetricRecorder.recordFlowFailure s).trace s.flowName = some 0 ∧
    (FlowMetricRecorder.recordFlowFailure s).startTime = none := by
  refine ⟨?_, ?_, ?_, ?_⟩
  · simp [FlowMetricRecorder.recordFlowSuccess, hclosed, truthyNum]
  · simp [FlowMetricRecorder.recordFlowSkipped, hclosed, truthyNum]
  · simpa [FlowMetricRecorder.recordFlowFailure] using
      lastStatusGauge_append_statusSet_hist s.trace s.flowName 0 0
  · simp [FlowMetricRecorder.recordFlowFailure]

/-- C10 witness: the asymmetry at a concrete recorder with no open run. -/
theorem c10_seal_asymmetry_witness :
    (freshRecorder "deposit").startTime = none ∧
    (FlowMetricRecorder.recordFlowSuccess 500 (freshRecorder "deposit") =
        .error "Flow start was not recorded" ∧
      FlowMetricRecorder.recordFlowSkipped (freshRecorder "deposit") =
        .error "Flow start was not recorded" ∧
      lastStatusGauge (FlowMetricRecorder.recordFlowFailure (freshRecorder "deposit")).trace
          (freshRecorder "deposit").flowName = some 0 ∧
      (FlowMetricRecorder.recordFlowFailure (freshRecorder "deposit")).startTime = none) :=
  ⟨rfl, c10_seal_asymmetry (freshRecorder "deposit") 500 rfl⟩

/-- Concrete fee environment whose `maxFeePerGas` (2000 gwei) exceeds the
default 1000 gwei ceiling. -/
def highFeeEnv : DepositTxEnv :=
  { chainTimestamp := some 5000,
    maxFeePerGas := some (2000 * 1000000000),
    maxPriorityFeePerGas := some 1000000000,
    submitOutcome := .ok (),
    reconcile := { latestL1Timestamp := 0, events := [] } }

/-- depositBase.ts `DEPOSIT_L1_GAS_PRICE_LIMIT_GWEI` at its default
configuration: 1000 gwei. -/
def DEPOSIT_L1_GAS_PRICE_LIMIT_GWEI : Int := 1000 * 1000000000

/-- Flow state of a fresh `DepositUserFlow`. -/
def freshDepositUserState : DepositUserFlowState :=
  { lastOnChainOperationTimestamp := 0, metricRecorder := freshRecorder "depositUser" }

/-- C3: counterexample.  The deposit-user gas-price skip is recorded via
`manualRecordStatus(SKIP, 0)`, which sets the `watchdog_status` gauge to 0
(the failure value), not to the 0.5 the claim asserts: on a concrete
attempt whose fee estimate exceeds the ceiling the attempt concludes SKIP
yet the gauge reads 0. -/
theorem c3_counterexample :
    (DepositUserFlow.executeDepositTx DEPOSIT_L1_GAS_PRICE_LIMIT_GWEI highFeeEnv
        freshDepositUserState).2.1 = .SKIP ∧
    lastStatusGauge
        (DepositUserFlow.executeDepositTx DEPOSIT_L1_GAS_PRICE_LIMIT_GWEI highFeeEnv
          freshDepositUserState).1.metricRecorder.trace "depositUser" = some 0 ∧
    (0 : Rat) ≠ 1/2 := by
  refine ⟨rfl, rfl, by norm_num⟩

/-- C3 (amended): a skip sealed through `recordFlowSkipped` sets the
aggregate `watchdog_status` gauge to 0.5, distinct from the 1 of success
and the 0 of failure; the deposit-user gas-price skip, however, is
recorded via `manualRecordStatus` with status SKIP, which sets the gauge
to 0 — the same value as a failure. -/
theorem c3_amended (s : FlowMetricRecorder) (v : Rat)
    (hopen : truthyNum s.startTime = true) :
    (∃ s2, FlowMetricRecorder.recordFlowSkipped s = .ok s2 ∧
        lastStatusGauge s2.trace s.flowName = some (1/2)) ∧
    lastStatusGauge (FlowMetricRecorder.manualRecordStatus .SKIP v s).trace
        s.flowName = some 0 ∧
    (1/2 : Rat) ≠ 1 ∧ (1/2 : Rat) ≠ 0 := by
  refine ⟨?_, ?_, by norm_num, by norm_num⟩
  · have hstep : FlowMetricRecorder.recordFlowSkipped s =
        .ok { s with startTime := none, trace := s.trace ++ [MetricEvent.statusSet s.flowName (1/2)] } := by
      simp [FlowMetricRecorder.recordFlowSkipped, hopen]
    exact ⟨_, hstep, lastStatusGauge_append_statusSet s.trace s.flowName (1/2)⟩
  · show lastStatusGauge
        (s.trace ++ [MetricEvent.statusSet s.flowName 0,
          MetricEvent.statusHistObserve s.flowName 0]) s.flowName = some 0
    exact lastStatusGauge_append_statusSet_hist s.trace s.flowName 0 0

/-- C3 witness: the amended statement at a concrete open-run recorder. -/
theorem c3_amended_witness :
    truthyNum ({ freshRecorder "depositUser" with startTime := some 7 } :
        FlowMetricRecorder).startTime = true ∧
    ((∃ s2, FlowMetricRecorder.recordFlowSkipped
          { freshRecorder "depositUser" with startTime := some 7 } = .ok s2 ∧
        lastStatusGauge s2.trace
          ({ freshRecorder "depositUser" with startTime := some 7 } :
            FlowMetricRecorder).flowName = some (1/2)) ∧
      lastStatusGauge
          (FlowMetricRecorder.manualRecordStatus .SKIP 0
            { freshRecorder "depositUser" with startTime := some 7 }).trace
          ({ freshRecorder "depositUser" with startTime := some 7 } :
            FlowMetricRecorder).flowName = some 0 ∧
      (1/2 : Rat) ≠ 1 ∧ (1/2 : Rat) ≠ 0) :=
  ⟨rfl, c3_amended { freshRecorder "depositUser" with startTime := some 7 } 0 rfl⟩

/-- L1 receipt of the deposit-initiation transaction in the C1 scenario. -/
def scenarioL1Receipt : TxReceipt :=
  { hash := "0xl1", status := 1, gasUsed := 21000, gasPrice := 10, blockTimestamp := 1000 }

/-- Successful L2 receipt of the derived priority operation in the C1
scenario, executed at timestamp 1005 (T + 5). -/
def scenarioL2Receipt : TxReceipt :=
  { hash := "0xl2", status := 1, gasUsed := 300, gasPrice := 2, blockTimestamp := 1005 }

/-- Scenario chain state: one deposit event at L1 timestamp 1000 (T) whose
L2 receipt succeeds at 1005 (T + 5); the latest L1 block is at 1100. -/
def scenarioEnv : DepositChainEnv :=
  { latestL1Timestamp := 1100,
    events := [{ blockNumber := 7, l1Timestamp := 1000,
                 l1Receipt := scenarioL1Receipt,
                 l2Receipt := some scenarioL2Receipt }] }

/-- The known result reconciliation produces on `scenarioEnv`. -/
def scenarioKnown : ExecutionResultKnown :=
  { secSinceL1Deposit := 100, l1Receipt := scenarioL1Receipt, timestampL1 := 1000,
    l2Receipt := some scenarioL2Receipt, timestampL2 := some 1005, status := .OK }

/-- C1: counterexample.  On the scenario of the claim (one deposit event at
L1 timestamp T = 1000 whose L2 receipt succeeds at T + 5 = 1005, latest L1
block at 1100) reconciliation does return Known with status OK, but
`secSinceL1Deposit` is 100 — the current L1 chain timestamp minus the L1
initiation timestamp — not the 5 seconds of L2 minus L1 execution the
claim asserts. -/
theorem c1_counterexample :
    DepositBaseFlow.getLastExecution scenarioEnv = .known scenarioKnown ∧
    scenarioKnown.timestampL1 = 1000 ∧
    scenarioKnown.timestampL2 = some 1005 ∧
    scenarioKnown.status = .OK ∧
    scenarioKnown.secSinceL1Deposit ≠ 1005 - 1000 := by
  refine ⟨rfl, rfl, rfl, rfl, by decide⟩

/-- C1 (amended): when reconciliation finds the L1 initiation event and the
derived L2 receipt succeeds, it returns Known with status OK whose
`secSinceL1Deposit` equals the latest L1 block timestamp minus the L1
initiation timestamp, while the L2 execution timestamp is carried
separately in `timestampL2`. -/
theorem c1_amended (env : DepositChainEnv) (k : ExecutionResultKnown)
    (h : DepositBaseFlow.getLastExecution env = .known k) (hOK : k.status = .OK) :
    k.secSinceL1Deposit = env.latestL1Timestamp - k.timestampL1 ∧
    ∃ r, k.l2Receipt = some r ∧ r.status = 1 ∧ k.timestampL2 = some r.blockTimestamp := by
  unfold DepositBaseFlow.getLastExecution at h
  split at h
  · simp at h
  · split at h
    · injection h with h2
      subst h2
      simp at hOK
    · split at h
      · injection h with h2
        subst h2
        simp at hOK
      · rename_i event l2r heq hst
        injection h with h2
        subst h2
        push_neg at hst
        exact ⟨rfl, l2r, rfl, hst, rfl⟩

/-- C1 witness: the amended statement evaluated on the scenario chain
state. -/
theorem c1_amended_witness :
    DepositBaseFlow.getLastExecution scenarioEnv = .known scenarioKnown ∧
    scenarioKnown.status = .OK ∧
    (scenarioKnown.secSinceL1Deposit =
        scenarioEnv.latestL1Timestamp - scenarioKnown.timestampL1 ∧
      ∃ r, scenarioKnown.l2Receipt = some r ∧ r.status = 1 ∧
        scenarioKnown.timestampL2 = some r.blockTimestamp) :=
  ⟨rfl, rfl, c1_amended scenarioEnv scenarioKnown rfl rfl⟩

/-- C5: invariant of the reconciliation result.  When status is OK both
receipts are present in the result — the L1 receipt of the selected event
and an L2 receipt whose status indicates success (1) — and when status is
FAIL the selected event's L2 lookup either observed no receipt within the
timeout or observed a receipt indicating failure. -/
theorem c5_invariant (env : DepositChainEnv) (k : ExecutionResultKnown)
    (h : DepositBaseFlow.getLastExecution env = .known k) :
    (k.status = .OK →
      (∃ r, k.l2Receipt = some r ∧ r.status = 1) ∧
      ∃ e, selectedDepositEvent env = some e ∧ k.l1Receipt = e.l1Receipt ∧
        e.l2Receipt = k.l2Receipt) ∧
    (k.status = .FAIL →
      ∃ e, selectedDepositEvent env = some e ∧
        (e.l2Receipt = none ∨ ∃ r, e.l2Receipt = some r ∧ r.status ≠ 1)) := by
  unfold DepositBaseFlow.getLastExecution at h
  cases hs : sortByBlockDesc env.events with
  | nil => rw [hs] at h; simp at h
  | cons e rest =>
      rw [hs] at h
      simp only at h
      have hsel : selectedDepositEvent env = some e := by
        simp [selectedDepositEvent, hs]
      cases hr : e.l2Receipt with
      | none =>
          rw [hr] at h
          simp only at h
          injection h with h2
          subst h2
          exact ⟨fun hOK => by simp at hOK, fun _ => ⟨e, hsel, Or.inl hr⟩⟩
      | some r =>
          rw [hr] at h
          simp only at h
          by_cases hst : r.status ≠ 1
          · rw [if_pos hst] at h
            injection h with h2
            subst h2
            exact ⟨fun hOK => by simp at hOK,
                   fun _ => ⟨e, hsel, Or.inr ⟨r, hr, hst⟩⟩⟩
          · rw [if_neg hst] at h
            injection h with h2
            subst h2
            push_neg at hst
            exact ⟨fun _ => ⟨⟨r, rfl, hst⟩, e, hsel, rfl, hr⟩,
                   fun hF => by simp at hF⟩

/-- C5 witness: the invariant evaluated on the scenario chain state, whose
result has status OK. -/
theorem c5_invariant_witness :
    DepositBaseFlow.getLastExecution scenarioEnv = .known scenarioKnown ∧
    ((scenarioKnown.status = .OK →
        (∃ r, scenarioKnown.l2Receipt = some r ∧ r.status = 1) ∧
        ∃ e, selectedDepositEvent scenarioEnv = some e ∧
          scenarioKnown.l1Receipt = e.l1Receipt ∧
          e.l2Receipt = scenarioKnown.l2Receipt) ∧
      (scenarioKnown.status = .FAIL →
        ∃ e, selectedDepositEvent scenarioEnv = some e ∧
          (e.l2Receipt = none ∨ ∃ r, e.l2Receipt = some r ∧ r.status ≠ 1))) :=
  ⟨rfl, c5_invariant scenarioEnv scenarioKnown rfl⟩

/-- Attempt outcome stream whose first attempt is SKIP and every later
attempt OK. -/
def skipThenOkResults : Nat → Status := fun k => if k = 0 then .SKIP else .OK

/-- Attempt outcome stream that always fails. -/
def allFailResults : Nat → Status := fun _ => .FAIL

/-- SKIP-free attempt outcome stream that always fails. -/
def allFailResultsNS : Nat → StatusNoSkip := fun _ => .FAIL

/-- C2: counterexample.  In the deposit-user retry loop a first-attempt
SKIP does not terminate the loop: with limit 3 and outcomes SKIP then OK
the single-attempt function is invoked twice, not the exactly once the
claim asserts (only an OK outcome breaks the loop; the SKIP case neither
breaks nor consumes an attempt). -/
theorem c2_counterexample :
    DepositUserFlow.runRetryLoop 3 skipThenOkResults 4 0 0 = some 2 ∧ (2 : Nat) ≠ 1 := by
  exact ⟨rfl, by decide⟩

/-- C2 (amended): a SKIP outcome does not consume a retry attempt but also
does not terminate the loop: the loop continues with the attempt counter
unchanged and the single-attempt function invoked once more; only OK
terminates the loop early. -/
theorem c2_amended (limit : Nat) (results : Nat → Status) (fuel attempt invocations : Nat)
    (hlt : attempt < limit) (hskip : results invocations = .SKIP) :
    DepositUserFlow.runRetryLoop limit results (fuel + 1) attempt invocations =
      DepositUserFlow.runRetryLoop limit results fuel attempt (invocations + 1) := by
  simp only [DepositUserFlow.runRetryLoop, if_pos hlt, hskip]

/-- C2 witness: the amended statement at limit 3 with a SKIP first
attempt. -/
theorem c2_amended_witness :
    (0 < 3 ∧ skipThenOkResults 0 = .SKIP) ∧
    DepositUserFlow.runRetryLoop 3 skipThenOkResults 4 0 0 =
      DepositUserFlow.runRetryLoop 3 skipThenOkResults 3 0 1 :=
  ⟨⟨by decide, rfl⟩, c2_amended 3 skipThenOkResults 3 0 0 (by decide) rfl⟩

/-- All-FAIL unrolling of the deposit.ts and transfer.ts for-loop: every
iteration consumes one invocation and continues. -/
theorem depositFor_allFail (results : Nat → StatusNoSkip)
    (hAll : ∀ k, results k = .FAIL) :
    ∀ remaining invocations,
      DepositFlow.runRetryFor results remaining invocations = invocations + remaining := by
  intro remaining
  induction remaining with
  | zero => intro inv; simp [DepositFlow.runRetryFor]
  | succ n ih =>
      intro inv
      simp only [DepositFlow.runRetryFor, hAll inv]
      rw [ih (inv + 1)]
      omega

/-- All-FAIL unrolling of the transfer.ts for-loop. -/
theorem transferFor_allFail (results : Nat → StatusNoSkip)
    (hAll : ∀ k, results k = .FAIL) :
    ∀ remaining invocations,
      SimpleTxFlow.runRetryFor results remaining invocations = invocations + remaining := by
  intro remaining
  induction remaining with
  | zero => intro inv; simp [SimpleTxFlow.runRetryFor]
  | succ n ih =>
      intro inv
      simp only [SimpleTxFlow.runRetryFor, hAll inv]
      rw [ih (inv + 1)]
      omega

/-- All-FAIL unrolling of the deposit-user while loop: with enough fuel the
loop exits after `limit - attempt` further invocations. -/
theorem usersLoop_allFail (limit : Nat) (results : Nat → Status)
    (hAll : ∀ k, results k = .FAIL) :
    ∀ fuel attempt invocations, attempt ≤ limit → limit - attempt < fuel →
      DepositUserFlow.runRetryLoop limit results fuel attempt invocations =
        some (invocations + (limit - attempt)) := by
  intro fuel
  induction fuel with
  | zero => intro attempt inv _ hf; omega
  | succ n ih =>
      intro attempt inv hle hf
      by_cases hlt : attempt < limit
      · simp only [DepositUserFlow.runRetryLoop, if_pos hlt, hAll inv]
        rw [ih (attempt + 1) (inv + 1) (by omega) (by omega)]
        congr 1
        omega
      · have : attempt = limit := by omega
        subst this
        simp [DepositUserFlow.runRetryLoop]

/-- C8: with retry limit N and a single-attempt function that always
returns FAIL, each of the three retry drivers — the deposit.ts for-loop,
the transfer.ts for-loop and the deposit-user while loop — invokes the
single-attempt function exactly N times and terminates (the while loop
exits within N + 1 fuel, returning an invocation count rather than
diverging; no branch throws). -/
theorem c8_retry_exhaustion (limit : Nat) (results : Nat → Status)
    (resultsNS : Nat → StatusNoSkip)
    (hAll : ∀ k, results k = .FAIL) (hAllNS : ∀ k, resultsNS k = .FAIL) :
    DepositFlow.retryInvocationCount limit resultsNS = limit ∧
    SimpleTxFlow.retryInvocationCount limit resultsNS = limit ∧
    DepositUserFlow.runRetryLoop limit results (limit + 1) 0 0 = some limit := by
  refine ⟨?_, ?_, ?_⟩
  · unfold DepositFlow.retryInvocationCount
    rw [depositFor_allFail resultsNS hAllNS limit 0]
    omega
  · unfold SimpleTxFlow.retryInvocationCount
    rw [transferFor_allFail resultsNS hAllNS limit 0]
    omega
  · rw [usersLoop_allFail limit results hAll (limit + 1) 0 0 (by omega) (by omega)]
    congr 1
    omega

/-- C8 witness: the three drivers at limit 3 with always-FAIL attempts. -/
theorem c8_retry_exhaustion_witness :
    DepositFlow.retryInvocationCount 3 allFailResultsNS = 3 ∧
    SimpleTxFlow.retryInvocationCount 3 allFailResultsNS = 3 ∧
    DepositUserFlow.runRetryLoop 3 allFailResults 4 0 0 = some 3 :=
  c8_retry_exhaustion 3 allFailResults allFailResultsNS (fun _ => rfl) (fun _ => rfl)

/-- C7: gas-price admission control in the deposit-user attempt.  With the
chain timestamp and fee data present, a fee estimate strictly above the
ceiling makes the attempt return SKIP without reaching the transaction
submission call, while a fee estimate at or below the ceiling proceeds to
submission. -/
theorem c7_gas_price_admission (limit : Int) (env : DepositTxEnv)
    (s : DepositUserFlowState) (ts f p : Int)
    (hts : env.chainTimestamp = some ts)
    (hf : env.maxFeePerGas = some f)
    (hp : env.maxPriorityFeePerGas = some p) :
    (f > limit →
      (DepositUserFlow.executeDepositTx limit env s).2.1 = .SKIP ∧
      (DepositUserFlow.executeDepositTx limit env s).2.2 = false) ∧
    (f ≤ limit →
      (DepositUserFlow.executeDepositTx limit env s).2.2 = true) := by
  constructor
  · intro hgt
    unfold DepositUserFlow.executeDepositTx
    rw [hts, hf]
    simp only
    rw [if_pos hgt]
    exact ⟨rfl, rfl⟩
  · intro hle
    unfold DepositUserFlow.executeDepositTx
    rw [hts, hf, hp]
    simp only
    rw [if_neg (by omega)]
    split
    · rfl
    · split
      · rfl
      · split <;> rfl

/-- C7 witness: the above-ceiling half evaluated on the concrete high-fee
environment. -/
theorem c7_gas_price_admission_witness :
    highFeeEnv.chainTimestamp = some 5000 ∧
    highFeeEnv.maxFeePerGas = some (2000 * 1000000000) ∧
    2000 * 1000000000 > DEPOSIT_L1_GAS_PRICE_LIMIT_GWEI ∧
    ((DepositUserFlow.executeDepositTx DEPOSIT_L1_GAS_PRICE_LIMIT_GWEI highFeeEnv
        freshDepositUserState).2.1 = .SKIP ∧
      (DepositUserFlow.executeDepositTx DEPOSIT_L1_GAS_PRICE_LIMIT_GWEI highFeeEnv
        freshDepositUserState).2.2 = false) :=
  ⟨rfl, rfl, by norm_num [DEPOSIT_L1_GAS_PRICE_LIMIT_GWEI],
    (c7_gas_price_admission DEPOSIT_L1_GAS_PRICE_LIMIT_GWEI highFeeEnv
      freshDepositUserState 5000 (2000 * 1000000000) 1000000000 rfl rfl rfl).1
      (by norm_num [DEPOSIT_L1_GAS_PRICE_LIMIT_GWEI])⟩

/-- Work that rejects 5 ms in, well within a 10 s deadline. -/
def rejectingWork : StepWork Nat :=
  { gasWrites := [], durationMs := 5, outcome := .error "boom" }

/-- Work that would resolve, but only after 20 s — past a 10 s deadline. -/
def overdueWork : StepWork Nat :=
  { gasWrites := [], durationMs := 20000, outcome := .ok 7 }

/-- Open-run recorder for the transfer flow. -/
def openTransferRecorder : FlowMetricRecorder :=
  { freshRecorder "transfer" with startTime := some 1 }

/-- C9: counterexample.  `stepExecution` awaits the timeout race before any
StepRecord write, so an attempt whose work rejects — and likewise one whose
work exceeds the step deadline — writes no step latency and no step
end-timestamp record at all, not the exactly one per attempt the claim
asserts. -/
theorem c9_counterexample :
    stepLatencyWriteCount (FlowMetricRecorder.stepExecution Nat "send" 10000
        rejectingWork 0 openTransferRecorder).1.trace "transfer" "send" = 0 ∧
    stepTimestampWriteCount (FlowMetricRecorder.stepExecution Nat "send" 10000
        rejectingWork 0 openTransferRecorder).1.trace "transfer" "send" = 0 ∧
    stepLatencyWriteCount (FlowMetricRecorder.stepExecution Nat "send" 10000
        overdueWork 0 openTransferRecorder).1.trace "transfer" "send" = 0 ∧
    (0 : Nat) ≠ 1 := by
  refine ⟨rfl, rfl, rfl, by decide⟩

/-- C9 (amended): a StepRecord — the step latency gauge write together with
the step end-timestamp gauge write — is produced exactly once per step
attempt whose work resolves within the step deadline, and not at all for
an attempt whose work rejects or exceeds the deadline (gas callback
writes are not StepRecord writes and never contribute to the counts). -/
theorem c9_amended (T : Type) (stepName : String) (stepTimeoutMs startMs : Int)
    (work : StepWork T) (s : FlowMetricRecorder) :
    stepLatencyWriteCount (FlowMetricRecorder.stepExecution T stepName stepTimeoutMs
        work startMs s).1.trace s.flowName stepName =
      stepLatencyWriteCount s.trace s.flowName stepName +
        (if work.durationMs ≤ stepTimeoutMs ∧ work.outcome.isOk = true then 1 else 0) ∧
    stepTimestampWriteCount (FlowMetricRecorder.stepExecution T stepName stepTimeoutMs
        work startMs s).1.trace s.flowName stepName =
      stepTimestampWriteCount s.trace s.flowName stepName +
        (if work.durationMs ≤ stepTimeoutMs ∧ work.outcome.isOk = true then 1 else 0) := by
  unfold FlowMetricRecorder.stepExecution withTimeout
  by_cases hd : work.durationMs ≤ stepTimeoutMs
  · rw [if_pos hd]
    cases ho : work.outcome with
    | error e =>
        simp only
        constructor <;>
          simp [stepLatencyWriteCount, stepTimestampWriteCount, List.filter_append,
            gasWrites_filter_latency, gasWrites_filter_timestamp, hd, ho, Except.isOk,
            Except.toBool]
    | ok v =>
        simp only
        constructor <;>
          simp [stepLatencyWriteCount, stepTimestampWriteCount, List.filter_append,
            gasWrites_filter_latency, gasWrites_filter_timestamp, hd, ho,
            MetricEvent.isStepLatencyFor, MetricEvent.isStepTimestampFor,
            List.filter, Except.isOk, Except.toBool]
  · rw [if_neg hd]
    simp only
    constructor <;>
      simp [stepLatencyWriteCount, stepTimestampWriteCount, List.filter_append,
        gasWrites_filter_latency, gasWrites_filter_timestamp, hd]

/-- C6: when no withdrawal event exists in the finalized-block window, the
withdrawal-finalize attempt reports SKIP — sealing the run via
`recordFlowSkipped`, not as a failure — and never reaches the
finalization-proof-parameter fetch step. -/
theorem c6_no_withdrawal_skips (env : WithdrawalFinalizeEnv) (rec : FlowMetricRecorder)
    (hempty : env.withdrawals.events = [])
    (hnow : env.startNowMs ≠ 0) :
    (WithdrawalFinalizeFlow.executeWithdrawalFinalize env rec).2.1 = .SKIP ∧
    (WithdrawalFinalizeFlow.executeWithdrawalFinalize env rec).2.2 = false := by
  have hnone : WithdrawalBaseFlow.getLastExecution env.withdrawals = none := by
    unfold WithdrawalBaseFlow.getLastExecution
    rw [hempty]
    simp [sortWithdrawalsByBlockDesc]
  have hskip : FlowMetricRecorder.recordFlowSkipped
      (FlowMetricRecorder.recordFlowStart env.startNowMs rec) =
      .ok { rec with startTime := none, trace := rec.trace ++ [MetricEvent.statusSet rec.flowName (1/2)] } := by
    simp [FlowMetricRecorder.recordFlowSkipped, FlowMetricRecorder.recordFlowStart,
      truthyNum, hnow]
  unfold WithdrawalFinalizeFlow.executeWithdrawalFinalize
  rw [hnone]
  simp only
  rw [hskip]
  exact ⟨rfl, rfl⟩

/-- Concrete finalization parameters for the C6 witness environment. -/
def sampleFinalizeParams : FinalizeWithdrawalParams :=
  { l1BatchNumber := 1, l2MessageIndex := 0, l2TxNumberInBlock := 0,
    message := "m", sender := L2_BASE_TOKEN_ADDRESS, proof := [] }

/-- Concrete withdrawal-finalize environment with an empty finalized-block
window. -/
def emptyWindowFinalizeEnv : WithdrawalFinalizeEnv :=
  { withdrawals := { logsDisabled := false, events := [] },
    blockTimestamp := 100, finalizedBlockTimestamp := 90,
    startNowMs := 1000, nowSec := 100,
    paramsStartMs := 1001,
    paramsWork := { gasWrites := [], durationMs := 1, outcome := .ok sampleFinalizeParams },
    simStartMs := 1002,
    estimateGasWork := { gasWrites := [], durationMs := 1, outcome := .ok 7 },
    preV26 := true, sealNowMs := 2000 }

/-- C6 witness: the SKIP outcome on the concrete empty-window
environment. -/
theorem c6_no_withdrawal_skips_witness :
    emptyWindowFinalizeEnv.withdrawals.events = [] ∧
    emptyWindowFinalizeEnv.startNowMs ≠ 0 ∧
    ((WithdrawalFinalizeFlow.executeWithdrawalFinalize emptyWindowFinalizeEnv
        (freshRecorder "withdrawalFinalize")).2.1 = .SKIP ∧
      (WithdrawalFinalizeFlow.executeWithdrawalFinalize emptyWindowFinalizeEnv
        (freshRecorder "withdrawalFinalize")).2.2 = false) :=
  ⟨rfl, by decide,
    c6_no_withdrawal_skips emptyWindowFinalizeEnv (freshRecorder "withdrawalFinalize")
      rfl (by decide)⟩
